import Mathlib

/-!
Shallow embedding of the astronomical math core of the universe-simulator
repository, together with theorems settling the specification claims.

Exact real/rational arithmetic stands in for JavaScript floating point:
components with no transcendental functions (parallax validation, unit
conversion, the simulation clock, LOD range checks) are embedded over `ℚ`
so that every definition is executable; the coordinate conversion and
orbital mechanics (which use `sin`/`cos`/`atan2`/`sqrt`) are embedded
over `ℝ`.  JavaScript `null`/`undefined` values are modelled with
`Option`, and a thrown `Error` with `Except String`.
-/

/-! ### Parallax validation (astronomical utils module)

Embeds `validateParallax` and `estimateBailerJonesDistance`.
The result record mirrors the JS object literally; `distance` is an
`Option` because `estimateBailerJonesDistance` can return `null`.
In JS, `null * 0.3` evaluates to `0`, which `Option.getD 0` reproduces
in the `uncertainty` field of the fallback branch.
-/

structure DistanceEstimate where
  isValid : Bool
  distance : Option ℚ
  uncertainty : ℚ
  snr : ℚ
  method : String
  deriving Repr, DecidableEq

/-- JS: `const snr = error > 0 ? Math.abs(parallax) / error : 0;` -/
def snrOf (parallax error : ℚ) : ℚ :=
  if 0 < error then |parallax| / error else 0

/-- JS `estimateBailerJonesDistance(parallax, error, L)`:
`if (error <= 0) return null;` then `varpi = parallax / 1000`;
for `varpi <= 0` return `L / 2`, else `clamp(1 / varpi, 10, 10000)`
written as `Math.max(10, Math.min(10000, r_mode))`. -/
def estimateBailerJonesDistance (parallax error L : ℚ) : Option ℚ :=
  if error ≤ 0 then none
  else
    let varpi := parallax / 1000
    if varpi ≤ 0 then
      some (L / 2)
    else
      let r_mode := 1 / varpi
      some (max 10 (min 10000 r_mode))

/-- JS `validateParallax(parallax, error)`.  The source has two `if`
statements whose guards are exact complements over an ordered field
(`parallax > 0 && snr > 5` versus `parallax <= 0 || snr <= 5`), so the
second guard is rendered as `else`. -/
def validateParallax (parallax error : ℚ) : DistanceEstimate :=
  let snr := snrOf parallax error
  if 0 < parallax ∧ 5 < snr then
    { isValid := true
      distance := some (1000 / parallax)
      uncertainty := (error / parallax ^ 2) * 1000
      snr := snr
      method := "trigonometric_parallax" }
  else
    let estimatedDistance := estimateBailerJonesDistance parallax error 1350
    { isValid := false
      distance := estimatedDistance
      uncertainty := estimatedDistance.getD 0 * 0.3
      snr := snr
      method := "photogeometric_estimate" }

/-! ### Distance unit conversion (astronomical utils module) -/

def PARSEC_TO_AU : ℚ := 206264.806

def PARSEC_TO_LY : ℚ := 3.26156

def AU_TO_KM : ℚ := 149597870.7

/-- ASCII case folding of one character, as `String.prototype.toLowerCase`
acts on the unit strings in play (all ASCII). -/
def jsCharLower (c : Char) : Char :=
  if 'A' ≤ c ∧ c ≤ 'Z' then Char.ofNat (c.toNat + 32) else c

/-- `s.toLowerCase()` on ASCII strings. -/
def jsToLower (s : String) : String :=
  ⟨s.data.map jsCharLower⟩

/-- Units-per-parsec scale of a unit string, `none` for an unrecognized
unit.  Mirrors the two identical `switch (unit.toLowerCase())` blocks of
`convertDistance`: the from-branch divides by this scale, the to-branch
multiplies by it. -/
def unitScale (u : String) : Option ℚ :=
  let s := jsToLower u
  if s = "pc" ∨ s = "parsec" ∨ s = "parsecs" then some 1
  else if s = "au" then some PARSEC_TO_AU
  else if s = "ly" ∨ s = "lightyear" ∨ s = "lightyears" then some PARSEC_TO_LY
  else if s = "km" then some (PARSEC_TO_AU * AU_TO_KM)
  else none

/-- JS `convertDistance(value, fromUnit, toUnit)`: identity shortcut on
`fromUnit === toUnit`, otherwise convert to parsecs first (throwing
`Unknown distance unit: ${fromUnit}` on an unrecognized source unit),
then from parsecs to the target unit (throwing on an unrecognized
target unit). -/
def convertDistance (value : ℚ) (fromUnit toUnit : String) : Except String ℚ :=
  if fromUnit = toUnit then .ok value
  else
    match unitScale fromUnit with
    | none => .error ("Unknown distance unit: " ++ fromUnit)
    | some sf =>
      let parsecs := value / sf
      match unitScale toUnit with
      | none => .error ("Unknown distance unit: " ++ toUnit)
      | some st => .ok (parsecs * st)

/-! ### LOD range check (src/rendering/lod-manager.js) -/

/-- JS truthiness of an optional numeric field: `undefined` and `0` are
falsy. -/
def jsFalsy (o : Option ℚ) : Bool :=
  match o with
  | none => true
  | some v => v = 0

/-- JS `LODManager.shouldRenderObject(object, cameraDistance)`:
`if (!object.userData.lodNear || !object.userData.lodFar) return true;`
then the inclusive range check
`cameraDistance >= lodNear && cameraDistance <= lodFar`. -/
def shouldRenderObject (lodNear lodFar : Option ℚ) (cameraDistance : ℚ) : Bool :=
  if jsFalsy lodNear || jsFalsy lodFar then true
  else
    decide (lodNear.getD 0 ≤ cameraDistance) && decide (cameraDistance ≤ lodFar.getD 0)

/-! ### Simulation clock (TimeController)

State of the controller; the DOM/`requestAnimationFrame` plumbing
(`setupUI`, `updateUI`, `lastUpdate`, `animationId`) is outside the
mutating math and is not part of the state.  Registered callbacks are
identified by natural-number ids; each operation returns the new state
together with the list of `(callbackId, currentTime, timeScale)`
invocations that `notifyCallbacks` performed during the call, in order.
-/

structure TimeCtrl where
  currentTime : ℚ
  timeScale : ℚ
  isPlaying : Bool
  updateCallbacks : List ℕ
  deriving Repr, DecidableEq

/-- The plain `{currentTime, timeScale, isPlaying}` record passed to
`setState` and returned by `getState`. -/
structure ClockSnapshot where
  currentTime : ℚ
  timeScale : ℚ
  isPlaying : Bool
  deriving Repr, DecidableEq

def maxTimeScale : ℚ := 1000

def minTimeScale : ℚ := 0.001

def defaultTimeScale : ℚ := 1

/-- One `(callback, currentTime, timeScale)` invocation per registered
callback, in registration order. -/
def notifyCallbacks (s : TimeCtrl) : List (ℕ × ℚ × ℚ) :=
  s.updateCallbacks.map (fun id => (id, s.currentTime, s.timeScale))

/-- JS `setTime(timeOffset)`: clamp to `[-10, 10]`, then notify. -/
def setTime (s : TimeCtrl) (timeOffset : ℚ) : TimeCtrl × List (ℕ × ℚ × ℚ) :=
  let s' := { s with currentTime := max (-10) (min 10 timeOffset) }
  (s', notifyCallbacks s')

/-- JS `resetTime()`: zero the offset, restore the default scale, notify. -/
def resetTime (s : TimeCtrl) : TimeCtrl × List (ℕ × ℚ × ℚ) :=
  let s' := { s with currentTime := 0, timeScale := defaultTimeScale }
  (s', notifyCallbacks s')

/-- JS `animate()` body for one tick with elapsed wall time `deltaTime`
seconds: only while playing does it advance (clamped) and notify. -/
def animate (s : TimeCtrl) (deltaTime : ℚ) : TimeCtrl × List (ℕ × ℚ × ℚ) :=
  if s.isPlaying then
    let timeIncrement := deltaTime * s.timeScale
    let s' := { s with currentTime := max (-10) (min 10 (s.currentTime + timeIncrement)) }
    (s', notifyCallbacks s')
  else (s, [])

/-- JS `togglePlayPause()`: flips `isPlaying`; on the paused-to-playing
transition `startAnimation()` re-anchors `lastUpdate = Date.now()` and
synchronously calls `animate()`, whose tick therefore sees zero elapsed
time — it clamps `currentTime` into `[-10, 10]` and invokes
`notifyCallbacks` before the toggle returns.  (The `animationId` guard
in `startAnimation` never fires here: whenever `isPlaying` is false the
preceding `stopAnimation` has nulled `animationId`.)  On the
playing-to-paused transition `stopAnimation()` only cancels the
scheduled frame. -/
def togglePlayPause (s : TimeCtrl) : TimeCtrl × List (ℕ × ℚ × ℚ) :=
  let s' := { s with isPlaying := !s.isPlaying }
  if s'.isPlaying then animate s' 0 else (s', [])

/-- JS `setTimeScale(scale)`: clamp to `[minTimeScale, maxTimeScale]`;
it does not call `notifyCallbacks`. -/
def setTimeScale (s : TimeCtrl) (scale : ℚ) : TimeCtrl × List (ℕ × ℚ × ℚ) :=
  ({ s with timeScale := max minTimeScale (min maxTimeScale scale) }, [])

/-- JS `setState(state)`: `this.currentTime = state.currentTime || 0`
(the `|| 0` replaces a falsy value, i.e. `0`, by `0` — no clamping),
`this.timeScale = state.timeScale || this.defaultTimeScale`, then the
play flag is reconciled through `togglePlayPause` when it differs —
inheriting that path's synchronous clamp-and-notify tick on the
paused-to-playing transition. -/
def setState (s : TimeCtrl) (st : ClockSnapshot) : TimeCtrl × List (ℕ × ℚ × ℚ) :=
  let s' := { s with
      currentTime := if st.currentTime = 0 then 0 else st.currentTime
      timeScale := if st.timeScale = 0 then defaultTimeScale else st.timeScale }
  if st.isPlaying && !s'.isPlaying then togglePlayPause s'
  else if !st.isPlaying && s'.isPlaying then togglePlayPause s'
  else (s', [])

/-- JS `addUpdateCallback(callback)`: push onto the subscriber list. -/
def addUpdateCallback (s : TimeCtrl) (id : ℕ) : TimeCtrl :=
  { s with updateCallbacks := s.updateCallbacks ++ [id] }

/-- The configured clock range of the source: `[-10, 10]` years. -/
def inTimeRange (x : ℚ) : Prop :=
  -10 ≤ x ∧ x ≤ 10

instance (x : ℚ) : Decidable (inTimeRange x) := by
  unfold inTimeRange; infer_instance

/-! ### Coordinate conversion (coordinate utilities module)

Real-valued: uses `sin`/`cos` and `π`.  A missing (`undefined`) parallax
argument is modelled by `Option`; the JS guard `!parallaxMas ||
parallaxMas <= 0` is `none`, or a value `≤ 0` (`0` being falsy is
subsumed by `≤ 0`).
-/

noncomputable section

structure CartesianPos where
  x : ℝ
  y : ℝ
  z : ℝ
  d_pc : ℝ

/-- JS `parallaxToDistance(parallaxMas)`. -/
def parallaxToDistance (parallaxMas : Option ℝ) : Option ℝ :=
  match parallaxMas with
  | none => none
  | some pm => if pm ≤ 0 then none else some (1000 / pm)

/-- JS `raDecParallaxToCartesian(raDeg, decDeg, parallaxMas)`. -/
def raDecParallaxToCartesian (raDeg decDeg : ℝ) (parallaxMas : Option ℝ) :
    Option CartesianPos :=
  match parallaxMas with
  | none => none
  | some pm =>
    if pm ≤ 0 then none
    else
      let d_pc := 1000 / pm
      let rad := Real.pi / 180
      let ra := raDeg * rad
      let dec := decDeg * rad
      let cosd := Real.cos dec
      some ⟨d_pc * cosd * Real.cos ra, d_pc * cosd * Real.sin ra,
            d_pc * Real.sin dec, d_pc⟩

/-! ### Kepler solver and orbit propagation (math utilities module) -/

/-- `Math.atan2(y, x)`: the standard piecewise-arctangent definition
(signed floating-point zeros have no counterpart in `ℝ`). -/
def atan2 (y x : ℝ) : ℝ :=
  if 0 < x then Real.arctan (y / x)
  else if x < 0 then
    if 0 ≤ y then Real.arctan (y / x) + Real.pi
    else Real.arctan (y / x) - Real.pi
  else
    if 0 < y then Real.pi / 2
    else if y < 0 then -(Real.pi / 2)
    else 0

/-- The `while (Math.abs(deltaE) > tolerance)` loop of
`MathUtils.solveKepler`, with explicit fuel since the source imposes no
iteration cap: `none` means the loop has not yet met the tolerance after
`fuel` further iterations.  Loop state is the pair `(E, deltaE)`. -/
def solveKeplerFuel (meanAnomaly eccentricity tolerance : ℝ) :
    ℕ → ℝ → ℝ → Option ℝ
  | 0, E, deltaE => if |deltaE| ≤ tolerance then some E else none
  | fuel + 1, E, deltaE =>
    if |deltaE| ≤ tolerance then some E
    else
      let deltaE' := (E - eccentricity * Real.sin E - meanAnomaly) /
        (1 - eccentricity * Real.cos E)
      solveKeplerFuel meanAnomaly eccentricity tolerance fuel (E - deltaE') deltaE'

/-- JS `MathUtils.solveKepler(meanAnomaly, eccentricity, tolerance = 1e-6)`:
initial guess `E = meanAnomaly`, `deltaE = 1`. -/
def solveKepler (meanAnomaly eccentricity tolerance : ℝ) (fuel : ℕ) : Option ℝ :=
  solveKeplerFuel meanAnomaly eccentricity tolerance fuel meanAnomaly 1

/-- True anomaly computed in `MathUtils.keplerianToCartesian`:
`2 * Math.atan2(sqrt(1+e) * sin(E/2), sqrt(1-e) * cos(E/2))`. -/
def trueAnomalyOf (eccentricity E : ℝ) : ℝ :=
  2 * atan2 (Real.sqrt (1 + eccentricity) * Real.sin (E / 2))
    (Real.sqrt (1 - eccentricity) * Real.cos (E / 2))

/-- `radius = semiMajorAxis * (1 - eccentricity * cos(E))`. -/
def orbitRadius (semiMajorAxis eccentricity E : ℝ) : ℝ :=
  semiMajorAxis * (1 - eccentricity * Real.cos E)

/-- Position in the orbital plane before rotation:
`(radius * cos(trueAnomaly), radius * sin(trueAnomaly), 0)`. -/
def orbitalPlanePos (semiMajorAxis eccentricity E : ℝ) : ℝ × ℝ × ℝ :=
  (orbitRadius semiMajorAxis eccentricity E *
      Real.cos (trueAnomalyOf eccentricity E),
    orbitRadius semiMajorAxis eccentricity E *
      Real.sin (trueAnomalyOf eccentricity E),
    0)

structure Vec3 where
  x : ℝ
  y : ℝ
  z : ℝ

/-- The deterministic tail of `MathUtils.keplerianToCartesian` once the
eccentric anomaly `E` has been produced by `solveKepler`: true anomaly,
orbital radius, position in the orbital plane, then the closed-form
combined 3-1-3 rotation of the source, entry for entry. -/
def keplerianFromE (semiMajorAxis eccentricity inclin longAscNode argPeri E : ℝ) :
    Vec3 :=
  let trueAnomaly := trueAnomalyOf eccentricity E
  let radius := orbitRadius semiMajorAxis eccentricity E
  let x_orb := radius * Real.cos trueAnomaly
  let y_orb := radius * Real.sin trueAnomaly
  let cos_i := Real.cos inclin
  let sin_i := Real.sin inclin
  let cos_O := Real.cos longAscNode
  let sin_O := Real.sin longAscNode
  let cos_w := Real.cos argPeri
  let sin_w := Real.sin argPeri
  ⟨(cos_O * cos_w - sin_O * sin_w * cos_i) * x_orb +
      (-cos_O * sin_w - sin_O * cos_w * cos_i) * y_orb,
    (sin_O * cos_w + cos_O * sin_w * cos_i) * x_orb +
      (-sin_O * sin_w + cos_O * cos_w * cos_i) * y_orb,
    (sin_w * sin_i) * x_orb + (cos_w * sin_i) * y_orb⟩

/-- Squared Euclidean norm of a position. -/
def normSq (v : Vec3) : ℝ :=
  v.x ^ 2 + v.y ^ 2 + v.z ^ 2

/-- Euclidean norm of a position. -/
def normV (v : Vec3) : ℝ :=
  Real.sqrt (normSq v)

end

/-! ### Theorems: parallax validation (claims C1, C3) -/

/-- C1 counterexample: at `parallax = 5`, `error = 0` the trigonometric
branch is not taken (`snr = 0`), and the fallback
`estimateBailerJonesDistance` hits its `error <= 0` guard and returns
`null`, so the returned estimate has no positive finite distance — the
fallback branch can fail. -/
theorem validateParallax_zero_error_no_distance :
    (validateParallax 5 0).distance = none := by decide

/-- C1 (amended): whenever `error > 0`, `validate_parallax` returns an
estimate whose distance is present and strictly positive (and, being a
rational number, finite); but when `error ≤ 0` and the trigonometric
branch does not apply, the fallback returns a `null` distance. -/
theorem validateParallax_distance_pos_of_error_pos (p e : ℚ) :
    (0 < e → ∃ d, (validateParallax p e).distance = some d ∧ 0 < d) ∧
    (e ≤ 0 → (validateParallax p e).distance = none) := by
  constructor
  · intro he
    by_cases htrig : 0 < p ∧ 5 < snrOf p e
    · refine ⟨1000 / p, ?_, div_pos (by norm_num) htrig.1⟩
      simp [validateParallax, htrig]
    · by_cases hv : p / 1000 ≤ 0
      · refine ⟨1350 / 2, ?_, by norm_num⟩
        simp [validateParallax, htrig, estimateBailerJonesDistance,
          not_le.mpr he, hv]
      · refine ⟨max 10 (min 10000 (1 / (p / 1000))), ?_,
          lt_of_lt_of_le (by norm_num) (le_max_left _ _)⟩
        simp [validateParallax, htrig, estimateBailerJonesDistance,
          not_le.mpr he, hv]
  · intro he
    have hsnr : snrOf p e = 0 := by simp [snrOf, not_lt.mpr he]
    have htrig : ¬(0 < p ∧ 5 < snrOf p e) := by
      rintro ⟨-, h5⟩
      rw [hsnr] at h5
      norm_num at h5
    simp [validateParallax, htrig, estimateBailerJonesDistance, he]

theorem validateParallax_distance_pos_witness :
    (0 : ℚ) < 1 ∧ ∃ d, (validateParallax 10 1).distance = some d ∧ 0 < d :=
  ⟨by norm_num, (validateParallax_distance_pos_of_error_pos 10 1).1 (by norm_num)⟩

/-- C3 (confirmed): the result method is `trigonometric_parallax` exactly
when `parallax > 0` and `snr > 5`, where `snr = |parallax| / error` for
`error > 0` and `0` otherwise; in the trigonometric case `isValid` is
true, distance is `1000/parallax` and uncertainty is
`(error/parallax²)·1000`; in every other case the method is
`photogeometric_estimate`. -/
theorem validateParallax_method_spec (p e : ℚ) :
    ((validateParallax p e).method = "trigonometric_parallax" ↔
      0 < p ∧ 5 < snrOf p e) ∧
    (0 < p ∧ 5 < snrOf p e →
      (validateParallax p e).isValid = true ∧
      (validateParallax p e).distance = some (1000 / p) ∧
      (validateParallax p e).uncertainty = (e / p ^ 2) * 1000) ∧
    (¬(0 < p ∧ 5 < snrOf p e) →
      (validateParallax p e).method = "photogeometric_estimate") ∧
    (validateParallax p e).snr = snrOf p e ∧
    (0 < e → snrOf p e = |p| / e) ∧
    (e ≤ 0 → snrOf p e = 0) := by
  have hupper : (0 < e → snrOf p e = |p| / e) ∧ (e ≤ 0 → snrOf p e = 0) := by
    constructor
    · intro he; simp [snrOf, he]
    · intro he; simp [snrOf, not_lt.mpr he]
  by_cases htrig : 0 < p ∧ 5 < snrOf p e
  · have hres : validateParallax p e =
        { isValid := true, distance := some (1000 / p),
          uncertainty := (e / p ^ 2) * 1000, snr := snrOf p e,
          method := "trigonometric_parallax" } := by
      simp only [validateParallax, if_pos htrig]
    rw [hres]
    exact ⟨⟨fun _ => htrig, fun _ => rfl⟩, fun _ => ⟨rfl, rfl, rfl⟩,
      fun h => absurd htrig h, rfl, hupper.1, hupper.2⟩
  · have hres : validateParallax p e =
        { isValid := false, distance := estimateBailerJonesDistance p e 1350,
          uncertainty := (estimateBailerJonesDistance p e 1350).getD 0 * 0.3,
          snr := snrOf p e, method := "photogeometric_estimate" } := by
      simp only [validateParallax, if_neg htrig]
    rw [hres]
    have hne : "photogeometric_estimate" ≠ "trigonometric_parallax" := by decide
    exact ⟨⟨fun h => absurd h hne, fun h => absurd h htrig⟩,
      fun h => absurd h htrig, fun _ => rfl, rfl, hupper.1, hupper.2⟩

theorem validateParallax_method_spec_witness :
    (0 : ℚ) < 10 ∧ 5 < snrOf 10 1 ∧
      (validateParallax 10 1).isValid = true ∧
      (validateParallax 10 1).distance = some (1000 / 10) ∧
      (validateParallax 10 1).uncertainty = (1 / 10 ^ 2) * 1000 := by
  have hsnr : (5 : ℚ) < snrOf 10 1 := by norm_num [snrOf]
  have h := (validateParallax_method_spec 10 1).2.1 ⟨by norm_num, hsnr⟩
  exact ⟨by norm_num, hsnr, h⟩

/-! ### Theorems: simulation clock (claims C5, C6) -/

/-- C5 counterexample: `setState` copies `currentTime` without clamping,
so from the initial state a `setState` with `currentTime = 100` leaves
the clock at offset `100`, outside the configured `[-10, 10]` range. -/
theorem setState_escapes_time_range :
    (setState ⟨0, 1, false, []⟩ ⟨100, 1, false⟩).1.currentTime = 100 ∧
    ¬ inTimeRange (setState ⟨0, 1, false, []⟩ ⟨100, 1, false⟩).1.currentTime := by
  decide

/-- C5 (amended): `set_time`, `advance`-while-playing, `reset`, and a
paused-to-playing `toggle` (whose synchronous `startAnimation` →
`animate` tick clamps the offset) always leave the offset inside
`[-10, 10]`; a playing-to-paused `toggle` and `set_scale` leave the
offset unchanged; and a `set_state` that flips the clock from paused to
playing clamps too — but a `set_state` that does not trigger that
transition writes the given offset unclamped, so the range invariant
holds after every operation only when such `set_state` calls are
excluded (or made with in-range values). -/
theorem clock_time_range_spec (s : TimeCtrl) (st : ClockSnapshot) (t dt sc : ℚ) :
    inTimeRange (setTime s t).1.currentTime ∧
    inTimeRange (resetTime s).1.currentTime ∧
    (s.isPlaying = true → inTimeRange (animate s dt).1.currentTime) ∧
    (s.isPlaying = false → inTimeRange (togglePlayPause s).1.currentTime) ∧
    (s.isPlaying = true → (togglePlayPause s).1.currentTime = s.currentTime) ∧
    (setTimeScale s sc).1.currentTime = s.currentTime ∧
    (s.isPlaying = false → st.isPlaying = true →
      inTimeRange (setState s st).1.currentTime) := by
  have hclamp : ∀ x : ℚ, inTimeRange (max (-10) (min 10 x)) :=
    fun x => ⟨le_max_left _ _, max_le (by norm_num) (min_le_left _ _)⟩
  refine ⟨hclamp _, ⟨by norm_num [resetTime], by norm_num [resetTime]⟩,
    fun hp => ?_, fun hp => ?_, fun hp => ?_, rfl, fun hp hst => ?_⟩
  · simp only [animate, hp, if_true]
    exact hclamp _
  · simp only [togglePlayPause, animate, hp, Bool.not_false, if_true]
    exact hclamp _
  · simp [togglePlayPause, hp]
  · simp only [setState, togglePlayPause, animate, hp, hst, Bool.not_false,
      Bool.and_true, Bool.and_false, Bool.true_and, Bool.false_and, if_true]
    exact hclamp _

theorem clock_time_range_spec_witness :
    (⟨0, 1, false, []⟩ : TimeCtrl).isPlaying = false ∧
    inTimeRange (togglePlayPause ⟨0, 1, false, []⟩).1.currentTime :=
  ⟨rfl, (clock_time_range_spec ⟨0, 1, false, []⟩ ⟨0, 1, false⟩ 5 3 2).2.2.2.1 rfl⟩

/-- C6 counterexample: with a registered subscriber (id `7`),
`setTimeScale` and a playing-to-paused `togglePlayPause` invoke no
callback at all, although a notification round (`notifyCallbacks`)
would be non-empty — so not every state mutation notifies the
subscribers. -/
theorem setTimeScale_no_notify :
    (setTimeScale ⟨0, 1, false, [7]⟩ 5).2 = [] ∧
    (togglePlayPause ⟨0, 1, true, [7]⟩).2 = [] ∧
    notifyCallbacks ⟨0, 1, false, [7]⟩ ≠ [] := by decide

/-- C6 (amended): `set_time`, `reset`, `advance`-while-playing, and the
paused-to-playing `toggle` (through its synchronous `startAnimation` →
`animate` tick) invoke every registered subscriber with the new
`(offset, scale)` pair (the `notifyCallbacks` round over the new state);
the playing-to-paused `toggle` and `set_scale` invoke no subscriber
callbacks. -/
theorem clock_notify_spec (s : TimeCtrl) (t dt sc : ℚ) :
    (setTime s t).2 = notifyCallbacks (setTime s t).1 ∧
    (resetTime s).2 = notifyCallbacks (resetTime s).1 ∧
    (s.isPlaying = true → (animate s dt).2 = notifyCallbacks (animate s dt).1) ∧
    (s.isPlaying = false →
      (togglePlayPause s).2 = notifyCallbacks (togglePlayPause s).1) ∧
    (s.isPlaying = true → (togglePlayPause s).2 = []) ∧
    (setTimeScale s sc).2 = [] := by
  refine ⟨rfl, rfl, fun hp => ?_, fun hp => ?_, fun hp => ?_, rfl⟩
  · simp only [animate, hp, if_true]
  · simp only [togglePlayPause, animate, hp, Bool.not_false, if_true]
  · simp [togglePlayPause, hp]

theorem clock_notify_spec_witness :
    (⟨0, 1, false, [7]⟩ : TimeCtrl).isPlaying = false ∧
    (togglePlayPause ⟨0, 1, false, [7]⟩).2 =
      notifyCallbacks (togglePlayPause ⟨0, 1, false, [7]⟩).1 :=
  ⟨rfl, (clock_notify_spec ⟨0, 1, false, [7]⟩ 5 3 2).2.2.2.1 rfl⟩

/-! ### Theorems: unit conversion (claim C7) -/

/-- C7 (confirmed): `convert_distance(x, u, u) = x` for every value and
every unit string (the identity shortcut fires before unit recognition);
when the units differ, an unrecognized source or target unit yields the
`Unknown distance unit` error; recognized conversions go through
parsecs, so `1 pc = 206264.806 au` and `1 pc = 3.26156 ly` exactly. -/
theorem convertDistance_spec (x : ℚ) (u v : String) :
    convertDistance x u u = .ok x ∧
    (u ≠ v → unitScale u = none →
      convertDistance x u v = .error ("Unknown distance unit: " ++ u)) ∧
    (u ≠ v → (∃ su, unitScale u = some su) → unitScale v = none →
      convertDistance x u v = .error ("Unknown distance unit: " ++ v)) ∧
    convertDistance 1 "pc" "au" = .ok PARSEC_TO_AU ∧
    convertDistance 1 "pc" "ly" = .ok PARSEC_TO_LY := by
  refine ⟨by simp [convertDistance], fun huv hu => ?_, fun huv hsu hv => ?_,
    ?_, ?_⟩
  · simp [convertDistance, huv, hu]
  · obtain ⟨su, hsu⟩ := hsu
    simp [convertDistance, huv, hsu, hv]
  · show convertDistance 1 "pc" "au" = .ok PARSEC_TO_AU
    have : (1 : ℚ) / 1 * PARSEC_TO_AU = PARSEC_TO_AU := by norm_num
    simp [convertDistance, unitScale, jsToLower, jsCharLower, this]
  · show convertDistance 1 "pc" "ly" = .ok PARSEC_TO_LY
    have : (1 : ℚ) / 1 * PARSEC_TO_LY = PARSEC_TO_LY := by norm_num
    simp [convertDistance, unitScale, jsToLower, jsCharLower, this]

theorem convertDistance_spec_witness :
    ("furlong" ≠ "pc") ∧
    convertDistance 1 "furlong" "pc" = .error ("Unknown distance unit: " ++ "furlong") :=
  ⟨by decide, (convertDistance_spec 1 "furlong" "pc").2.1 (by decide) (by decide)⟩

/-! ### Theorems: LOD range check (claim C8) -/

/-- C8 counterexample: an object configured with bounds `near = 0`,
`far = 100` is reported renderable at observer distance `500`, because
the JS truthiness guard treats the configured bound `0` like an absent
one — contradicting the claimed inclusive range check `0 ≤ 500 ≤ 100`. -/
theorem shouldRenderObject_zero_bound_counterexample :
    shouldRenderObject (some 0) (some 100) 500 = true ∧
    ¬((0 : ℚ) ≤ 500 ∧ (500 : ℚ) ≤ 100) := by decide

/-- C8 (amended): `is_in_lod_range` is the inclusive range check
`near ≤ d ≤ far` only for objects whose two configured bounds are both
nonzero; an object with an absent bound — or with either bound equal to
`0`, which JS truthiness conflates with absent — is always considered
in range. -/
theorem shouldRenderObject_spec (n f d : ℚ) (no fo : Option ℚ) :
    shouldRenderObject none fo d = true ∧
    shouldRenderObject no none d = true ∧
    shouldRenderObject (some 0) fo d = true ∧
    shouldRenderObject no (some 0) d = true ∧
    (n ≠ 0 → f ≠ 0 →
      (shouldRenderObject (some n) (some f) d = true ↔ n ≤ d ∧ d ≤ f)) := by
  refine ⟨by simp [shouldRenderObject, jsFalsy], ?_,
    by simp [shouldRenderObject, jsFalsy], ?_, fun hn hf => ?_⟩
  · cases no <;> simp [shouldRenderObject, jsFalsy]
  · cases no <;> simp [shouldRenderObject, jsFalsy]
  · simp [shouldRenderObject, jsFalsy, hn, hf]

theorem shouldRenderObject_spec_witness :
    ((1 : ℚ) ≠ 0) ∧ ((100 : ℚ) ≠ 0) ∧
    (shouldRenderObject (some 1) (some 100) 50 = true ↔
      (1 : ℚ) ≤ 50 ∧ (50 : ℚ) ≤ 100) :=
  ⟨by norm_num, by norm_num,
    (shouldRenderObject_spec 1 100 50 none none).2.2.2.2 (by norm_num) (by norm_num)⟩

/-! ### Theorems: coordinate conversion (claim C4) -/

/-- On the unit circle, `Math.atan2` inverts `cos`/`sin`: for
`x² + y² = 1`, `cos (atan2 y x) = x` and `sin (atan2 y x) = y`. -/
theorem cos_sin_atan2_unit (y x : ℝ) (h : x ^ 2 + y ^ 2 = 1) :
    Real.cos (atan2 y x) = x ∧ Real.sin (atan2 y x) = y := by
  rcases lt_trichotomy 0 x with hx | hx | hx
  · have hx0 : x ≠ 0 := ne_of_gt hx
    have h1 : 1 + (y / x) ^ 2 = (1 / x) ^ 2 := by
      field_simp
      linarith [h]
    have hs : Real.sqrt (1 + (y / x) ^ 2) = 1 / x := by
      rw [h1, Real.sqrt_sq (by positivity)]
    unfold atan2
    rw [if_pos hx, Real.cos_arctan, Real.sin_arctan, hs]
    constructor <;> field_simp
  · have hx' : x = 0 := hx.symm
    subst hx'
    have h2 : y ^ 2 = 1 := by linarith [h]
    have hy : y = 1 ∨ y = -1 := by
      have h3 : (y - 1) * (y + 1) = 0 := by linear_combination h2
      rcases mul_eq_zero.mp h3 with h4 | h4
      · exact Or.inl (by linarith)
      · exact Or.inr (by linarith)
    unfold atan2
    rw [if_neg (lt_irrefl 0), if_neg (lt_irrefl 0)]
    rcases hy with hy | hy <;> subst hy
    · rw [if_pos one_pos]
      exact ⟨Real.cos_pi_div_two, Real.sin_pi_div_two⟩
    · rw [if_neg (by norm_num), if_pos (by norm_num)]
      constructor
      · rw [Real.cos_neg, Real.cos_pi_div_two]
      · rw [Real.sin_neg, Real.sin_pi_div_two]
  · have hx0 : x ≠ 0 := ne_of_lt hx
    have h1 : 1 + (y / x) ^ 2 = (1 / x) ^ 2 := by
      field_simp
      linarith [h]
    have hs : Real.sqrt (1 + (y / x) ^ 2) = -(1 / x) := by
      rw [h1, Real.sqrt_sq_eq_abs, abs_of_neg (one_div_neg.mpr hx)]
    unfold atan2
    rw [if_neg (not_lt.mpr hx.le), if_pos hx]
    by_cases hy : 0 ≤ y
    · rw [if_pos hy, Real.cos_add, Real.sin_add, Real.cos_pi, Real.sin_pi,
        Real.cos_arctan, Real.sin_arctan, hs]
      constructor <;> field_simp
    · rw [if_neg hy, Real.cos_sub, Real.sin_sub, Real.cos_pi, Real.sin_pi,
        Real.cos_arctan, Real.sin_arctan, hs]
      constructor <;> field_simp

/-- C4 (confirmed): `equatorial_to_cartesian` (and `parallax_to_distance`)
return `none` exactly for an absent or non-positive parallax; otherwise
the position is `d·cos(dec)·cos(ra), d·cos(dec)·sin(ra), d·sin(dec)` with
`d = 1000/parallax` and degree-to-radian conversion, and the three
unit-distance axis checks hold. -/
theorem coordinateConversion_spec :
    (∀ (ra dec : ℝ) (p : Option ℝ),
      raDecParallaxToCartesian ra dec p = none ↔
        p = none ∨ ∃ v, p = some v ∧ v ≤ 0) ∧
    (∀ p : Option ℝ, parallaxToDistance p = none ↔
        p = none ∨ ∃ v, p = some v ∧ v ≤ 0) ∧
    (∀ (ra dec v : ℝ), 0 < v →
      raDecParallaxToCartesian ra dec (some v) =
        some ⟨(1000 / v) * Real.cos (dec * (Real.pi / 180)) *
                Real.cos (ra * (Real.pi / 180)),
              (1000 / v) * Real.cos (dec * (Real.pi / 180)) *
                Real.sin (ra * (Real.pi / 180)),
              (1000 / v) * Real.sin (dec * (Real.pi / 180)), 1000 / v⟩) ∧
    raDecParallaxToCartesian 0 0 (some 1000) = some ⟨1, 0, 0, 1⟩ ∧
    raDecParallaxToCartesian 90 0 (some 1000) = some ⟨0, 1, 0, 1⟩ ∧
    raDecParallaxToCartesian 0 90 (some 1000) = some ⟨0, 0, 1, 1⟩ := by
  have h90 : (90 : ℝ) * (Real.pi / 180) = Real.pi / 2 := by ring
  refine ⟨?_, ?_, ?_, ?_, ?_, ?_⟩
  · intro ra dec p
    cases p with
    | none => simp [raDecParallaxToCartesian]
    | some v =>
      by_cases hv : v ≤ 0 <;> simp [raDecParallaxToCartesian, hv]
  · intro p
    cases p with
    | none => simp [parallaxToDistance]
    | some v =>
      by_cases hv : v ≤ 0 <;> simp [parallaxToDistance, hv]
  · intro ra dec v hv
    simp [raDecParallaxToCartesian, not_le.mpr hv]
  · norm_num [raDecParallaxToCartesian]
  · norm_num [raDecParallaxToCartesian, h90]
  · norm_num [raDecParallaxToCartesian, h90]

theorem coordinateConversion_spec_witness :
    raDecParallaxToCartesian 0 0 (some 1000) =
      some ⟨(1000 / 1000) * Real.cos (0 * (Real.pi / 180)) *
              Real.cos (0 * (Real.pi / 180)),
            (1000 / 1000) * Real.cos (0 * (Real.pi / 180)) *
              Real.sin (0 * (Real.pi / 180)),
            (1000 / 1000) * Real.sin (0 * (Real.pi / 180)), 1000 / 1000⟩ :=
  coordinateConversion_spec.2.2.1 0 0 1000 (by norm_num)

/-! ### Theorems: Kepler solver and orbit propagation (claims C9, C10) -/

/-- With zero eccentricity the true anomaly agrees with the eccentric
anomaly up to a multiple of `2π`: its cosine and sine equal those of `E`. -/
theorem trueAnomalyOf_zero_ecc (E : ℝ) :
    Real.cos (trueAnomalyOf 0 E) = Real.cos E ∧
    Real.sin (trueAnomalyOf 0 E) = Real.sin E := by
  have hunit : Real.cos (E / 2) ^ 2 + Real.sin (E / 2) ^ 2 = 1 :=
    Real.cos_sq_add_sin_sq _
  have h := cos_sin_atan2_unit (Real.sin (E / 2)) (Real.cos (E / 2)) hunit
  unfold trueAnomalyOf
  simp only [add_zero, sub_zero, Real.sqrt_one, one_mul]
  rw [Real.cos_two_mul, Real.sin_two_mul, h.1, h.2]
  constructor
  · conv_rhs => rw [show E = 2 * (E / 2) by ring, Real.cos_two_mul]
  · conv_rhs => rw [show E = 2 * (E / 2) by ring, Real.sin_two_mul]

/-- C9 (confirmed): with eccentricity `0` and the default tolerance
`1e-6`, the Newton loop of `solve_kepler` terminates after its first
iteration (any fuel bound `≥ 1` suffices) and returns the mean anomaly
itself; and the position in the orbital plane before rotation is
`(a·cos M, a·sin M, 0)` — a circle of radius the semi-major axis. -/
theorem kepler_circular_spec :
    (∀ (M : ℝ) (fuel : ℕ), 1 ≤ fuel → solveKepler M 0 1e-6 fuel = some M) ∧
    (∀ a M : ℝ, orbitalPlanePos a 0 M = (a * Real.cos M, a * Real.sin M, 0)) := by
  constructor
  · intro M fuel hf
    obtain ⟨n, rfl⟩ : ∃ n, fuel = n + 1 := ⟨fuel - 1, by omega⟩
    unfold solveKepler
    rw [solveKeplerFuel, if_neg (by norm_num : ¬|(1 : ℝ)| ≤ 1e-6)]
    have hstep : (M - 0 * Real.sin M - M) / (1 - 0 * Real.cos M) = 0 := by
      norm_num
    simp only [hstep, sub_zero]
    cases n <;> rw [solveKeplerFuel] <;>
      rw [if_pos (by norm_num : |(0 : ℝ)| ≤ 1e-6)]
  · intro a M
    have h := trueAnomalyOf_zero_ecc M
    unfold orbitalPlanePos orbitRadius
    rw [h.1, h.2]
    norm_num

theorem kepler_circular_spec_witness :
    solveKepler 0 0 1e-6 1 = some 0 :=
  kepler_circular_spec.1 0 1 (le_refl 1)

/-- C10 (confirmed): the squared norm of the rotated position equals the
squared orbital radius for all orientation angles — the composed 3-1-3
rotation of `keplerianToCartesian` preserves distance from the origin —
and for a nonnegative semi-major axis and eccentricity in `[0, 1)` the
Euclidean norm equals the pre-rotation orbital radius
`a·(1 − e·cos E)` itself. -/
theorem keplerian_norm_spec (a e incl Ω ω E : ℝ) :
    normSq (keplerianFromE a e incl Ω ω E) = (a * (1 - e * Real.cos E)) ^ 2 ∧
    (0 ≤ a → 0 ≤ e → e < 1 →
      normV (keplerianFromE a e incl Ω ω E) = a * (1 - e * Real.cos E)) := by
  have hO := Real.cos_sq_add_sin_sq Ω
  have hi := Real.cos_sq_add_sin_sq incl
  have hw := Real.cos_sq_add_sin_sq ω
  have hv := Real.cos_sq_add_sin_sq (trueAnomalyOf e E)
  have key : normSq (keplerianFromE a e incl Ω ω E) =
      (a * (1 - e * Real.cos E)) ^ 2 := by
    unfold normSq keplerianFromE orbitRadius
    set cv := Real.cos (trueAnomalyOf e E)
    set sv := Real.sin (trueAnomalyOf e E)
    set ci := Real.cos incl
    set si := Real.sin incl
    set cO := Real.cos Ω
    set sO := Real.sin Ω
    set cw := Real.cos ω
    set sw := Real.sin ω
    set r := a * (1 - e * Real.cos E) with hr
    linear_combination
      ((cw * (r * cv) - sw * (r * sv)) ^ 2 +
          (ci * (sw * (r * cv) + cw * (r * sv))) ^ 2) * hO +
        (sw * (r * cv) + cw * (r * sv)) ^ 2 * hi +
        ((r * cv) ^ 2 + (r * sv) ^ 2) * hw + r ^ 2 * hv
  refine ⟨key, fun ha he0 he1 => ?_⟩
  have h1 : e * Real.cos E ≤ e := by
    nlinarith [Real.cos_le_one E]
  have hr0 : 0 ≤ a * (1 - e * Real.cos E) := mul_nonneg ha (by linarith)
  rw [normV, key, Real.sqrt_sq hr0]

theorem keplerian_norm_spec_witness :
    (0 : ℝ) ≤ 1 ∧
    normV (keplerianFromE 1 0 0 0 0 0) = 1 * (1 - 0 * Real.cos 0) :=
  ⟨by norm_num,
    (keplerian_norm_spec 1 0 0 0 0 0).2 (by norm_num) (by norm_num) (by norm_num)⟩
